import Mathlib

/-
Verification of the libblockdev kbd plugin (src/plugins/kbd.c): a shallow
embedding of the zRAM and bcache device-lifecycle operations.

External effects (kmod calls, sysfs file writes, the make-bcache tool, glob,
access(2), readlink) are modelled by an environment `Env` of response
oracles; each operation threads a `World` that records the sequence of
issued external requests (`Event` trace) so that ordering and
"never attempted" properties can be stated.

GError out-parameters are modelled as `Option GErr` with GLib's documented
semantics: `g_set_error` over an already-set error keeps the first error
(and logs a warning), `g_prefix_error` prepends context to the message,
`g_clear_error` resets to NULL.
-/

namespace Kbd

/-- Error kinds: the BD_KBD_ERROR_* codes of kbd.h plus the foreign GLib
domains that reach the caller through the same GError out-parameter
(I/O channel errors, exec-util errors, file errors). `g_error_matches`
compares domain and code, which this single flat kind models. -/
inductive ErrKind where
  | kmodInitFail      -- BD_KBD_ERROR_KMOD_INIT_FAIL
  | moduleFail        -- BD_KBD_ERROR_MODULE_FAIL
  | moduleNoexist     -- BD_KBD_ERROR_MODULE_NOEXIST
  | bcacheParse       -- BD_KBD_ERROR_BCACHE_PARSE
  | bcacheSetupFail   -- BD_KBD_ERROR_BCACHE_SETUP_FAIL
  | bcacheDetachFail  -- BD_KBD_ERROR_BCACHE_DETACH_FAIL
  | bcacheNotAttached -- BD_KBD_ERROR_BCACHE_NOT_ATTACHED
  | bcacheUUID        -- BD_KBD_ERROR_BCACHE_UUID
  | ioError           -- a GLib I/O-channel / file error (foreign domain)
  | execError         -- a bd_utils exec error (foreign domain)
  deriving DecidableEq

/-- A GError value: domain+code collapsed into `kind`, and the message. -/
structure GErr where
  kind : ErrKind
  msg : String
  deriving DecidableEq

/-- g_set_error: sets the out-parameter only when it is NULL; GLib keeps an
already-set error unchanged (and merely logs a warning). -/
def g_set_error (error : Option GErr) (k : ErrKind) (m : String) : Option GErr :=
  match error with
  | none => some ⟨k, m⟩
  | some old => some old

/-- Setting a ready-made GError produced by a callee (exec utils, GLib file
functions); same keep-the-first-error semantics as `g_set_error`. -/
def g_set_err (error : Option GErr) (e : GErr) : Option GErr :=
  match error with
  | none => some e
  | some old => some old

/-- g_prefix_error: prepends context to the current error's message. -/
def g_add_context (error : Option GErr) (p : String) : Option GErr :=
  match error with
  | none => none
  | some e => some ⟨e.kind, p ++ e.msg⟩

/-- g_clear_error. -/
def g_clear_error (_ : Option GErr) : Option GErr := none

/-- g_error_matches: NULL matches nothing; otherwise compares domain+code. -/
def errMatches (error : Option GErr) (k : ErrKind) : Bool :=
  match error with
  | none => false
  | some e => e.kind = k

/-- Outcome of one `load_kernel_module` call, one case per failing kmod
step in kbd.c lines 46-91: context creation, module resolution by name,
missing backing file, insertion. -/
inductive KmodLoadOutcome where
  | initFail                     -- kmod_new returned NULL
  | newFromNameFail (os : String) -- kmod_module_new_from_name < 0
  | noPath                       -- kmod_module_get_path returned NULL
  | insertFail (os : String)     -- kmod_module_insert_module < 0
  | ok
  deriving DecidableEq

/-- The error kind a `KmodLoadOutcome` produces (none when it succeeds). -/
def KmodLoadOutcome.errKind : KmodLoadOutcome → Option ErrKind
  | .initFail => some .kmodInitFail
  | .newFromNameFail _ => some .moduleFail
  | .noPath => some .moduleNoexist
  | .insertFail _ => some .moduleFail
  | .ok => none

/-- Outcome of one `unload_kernel_module` call, one case per failing kmod
step in kbd.c lines 93-148: context creation, enumeration of loaded
modules, the name not being found, removal. -/
inductive KmodUnloadOutcome where
  | initFail                     -- kmod_new returned NULL
  | enumFail (os : String)       -- kmod_module_new_from_loaded < 0
  | notFound                     -- linear search found no such module
  | removeFail (os : String)     -- kmod_module_remove_module < 0
  | ok
  deriving DecidableEq

/-- One external request issued by the plugin, in issue order. -/
inductive Event where
  | evEcho (str path : String)      -- echo_str_to_file attempt (open the file)
  | evLoad (name opts : String)     -- load_kernel_module call
  | evUnload (name : String)        -- unload_kernel_module call
  | evExec (argv : List String)     -- bd_utils_exec_and_capture_output
  | evGlob (pat : String)           -- glob(3) call
  | evAccess (path : String)        -- access(path, R_OK)
  | evReadLink (path : String)      -- g_file_read_link
  deriving DecidableEq

/-- The environment: a response oracle for every external effect. Load
outcomes are indexed by how many load calls already happened, since the
zRAM fallback may call load twice with different results. -/
structure Env where
  loadOutcome : Nat → String → String → KmodLoadOutcome
  unloadOutcome : String → KmodUnloadOutcome
  openOutcome : String → Except String Unit          -- g_io_channel_new_file
  writeChars : String → String → Except String Unit  -- g_io_channel_write_chars
  flushClose : String → String → Except String Unit  -- g_io_channel_shutdown
  execOutcome : List String → Except GErr String     -- tool stdout or its error
  globList : String → List String                    -- glob matches (in glob order)
  accessOk : String → Bool                           -- access(path, R_OK) == 0
  readLinkOutcome : String → Except GErr String      -- link target or its error

/-- Program state: the static environment plus the trace of issued requests. -/
structure World where
  env : Env
  trace : List Event

/-- Append one event to the trace. -/
def World.record (w : World) (e : Event) : World := ⟨w.env, w.trace ++ [e]⟩

/-- Whether an event is a load call (used to index the load oracle). -/
def isLoadEv : Event → Bool
  | .evLoad _ _ => true
  | _ => false

/-- Number of load calls recorded so far. -/
def countLoads (tr : List Event) : Nat := (tr.filter isLoadEv).length

/-! ### String helpers translated from the C string handling -/

/-- `g_str_has_prefix (s, "/dev/")` followed by `s += 5`: strip a leading
"/dev/" if present (bd_kbd_bcache_attach/detach/destroy all do this). -/
def stripDev (s : String) : String :=
  if s.data.take 5 = "/dev/".data then String.mk (s.data.drop 5) else s

/-- `strrchr (s, '/')` followed by moving one past the '/': the suffix after
the last '/', or none when the string has no '/'. -/
def afterLastSlash : List Char → Option (List Char)
  | [] => none
  | c :: rest =>
    match afterLastSlash rest with
    | some r => some r
    | none => if c = '/' then some rest else none

/-- One step of the "move forward past the next '/'" pointer walk:
`p = strchr (p, '/'); p = p ? p + 1 : p` — none models the NULL pointer. -/
def dropThroughSlash : List Char → Option (List Char)
  | [] => none
  | c :: rest => if c = '/' then some rest else dropThroughSlash rest

/-- kbd.c lines 350-355: `dev_name = path + 1` then twice
`strchr`+advance — the position right after the third '/' of the glob
match, or none when the walk hit the end (the C code then returns FALSE). -/
def extract_after_three (cs : List Char) : Option (List Char) :=
  (dropThroughSlash (cs.drop 1)).bind dropThroughSlash

/-- kbd.c lines 360-362: `dev_name_end = strchr (dev_name, '/')` and
`g_strndup (dev_name, dev_name_end - dev_name)`. The C code does not check
`dev_name_end` for NULL: when the remainder has no '/' the pointer
subtraction is undefined, which `none` marks here. -/
def firstSegment (cs : List Char) : Option (List Char) :=
  if cs.any (fun c => c = '/') then some (cs.takeWhile (fun c => c ≠ '/')) else none

/-- Split on newlines, keeping empty pieces (the behavior of g_strsplit on
a nonempty string). -/
def splitNl : List Char → List (List Char)
  | [] => [[]]
  | c :: rest =>
    match splitNl rest with
    | [] => [[]]
    | l :: ls => if c = '\n' then [] :: l :: ls else (c :: l) :: ls

/-- `g_strsplit (output, "\n", 0)`: an empty string gives an empty vector,
otherwise split on every newline. -/
def g_strsplit (s : String) : List (List Char) :=
  if s.data = [] then [] else splitNl s.data

/-- PCRE \s on a single line: space, tab, CR, vertical tab, form feed. -/
def isWs (c : Char) : Bool :=
  c = ' ' || c = '\t' || c = '\r' || c = Char.ofNat 11 || c = Char.ofNat 12

/-- The character class [-a-z0-9] of the Set UUID pattern. -/
def isUuidChar (c : Char) : Bool :=
  c = '-' || ('a' ≤ c && c ≤ 'z') || ('0' ≤ c && c ≤ '9')

/-- Try the pattern `Set UUID:\s+([-a-z0-9]+)` anchored at the head of
`cs`; the capture group when it matches here. Since the \s class and the
capture class are disjoint, the greedy match is the maximal whitespace run
followed by the maximal [-a-z0-9] run. -/
def matchUUIDHere (cs : List Char) : Option (List Char) :=
  if cs.take 9 = "Set UUID:".data then
    let rest := cs.drop 9
    let ws := rest.takeWhile isWs
    let cap := (rest.dropWhile isWs).takeWhile isUuidChar
    if ws = [] then none else if cap = [] then none else some cap
  else none

/-- `g_regex_match` with the Set UUID pattern: leftmost match in the line;
the capture group of that match. -/
def searchSetUUID : List Char → Option (List Char)
  | [] => none
  | c :: cs =>
    match matchUUIDHere (c :: cs) with
    | some u => some u
    | none => searchSetUUID cs

/-- kbd.c lines 303-310: scan the split lines in order, stop at the first
line the regex matches, and keep that line's capture group. -/
def find_set_uuid : List (List Char) → Option (List Char)
  | [] => none
  | l :: ls =>
    match searchSetUUID l with
    | some u => some u
    | none => find_set_uuid ls

/-! ### The leaf operations: sysfs writer and module loader -/

/-- The error `echo_str_to_file` produces for given environment responses,
one case per failing step of kbd.c lines 150-166: g_io_channel_new_file,
g_io_channel_write_chars (both reported with the "Failed to write ..."
context), and g_io_channel_shutdown ("Failed to flush and close ...").
Each carries the underlying OS error text; none when all steps succeed. -/
def echoErr (env : Env) (str path : String) : Option GErr :=
  match env.openOutcome path with
  | .error os =>
    some ⟨.ioError, "Failed to write '" ++ str ++ "' to file '" ++ path ++ "': " ++ os⟩
  | .ok _ =>
    match env.writeChars str path with
    | .error os =>
      some ⟨.ioError, "Failed to write '" ++ str ++ "' to file '" ++ path ++ "': " ++ os⟩
    | .ok _ =>
      match env.flushClose str path with
      | .error os =>
        some ⟨.ioError, "Failed to flush and close the file '" ++ path ++ "': " ++ os⟩
      | .ok _ => none

/-- kbd.c lines 150-166 `echo_str_to_file`: open the file for writing,
write the string as-is, flush and close; TRUE iff every step succeeded.
The attempt is recorded as one `evEcho` event. -/
def echo_str_to_file (str file_path : String) (error : Option GErr) (w : World) :
    Bool × Option GErr × World :=
  let w := w.record (.evEcho str file_path)
  match echoErr w.env str file_path with
  | some e => (false, g_set_err error e, w)
  | none => (true, error, w)

/-- The error `load_kernel_module` sets for a given kmod outcome
(kbd.c lines 53-86), with the exact g_set_error message of each branch. -/
def loadErr (module_name options : String) : KmodLoadOutcome → Option GErr
  | .initFail => some ⟨.kmodInitFail, "Failed to initialize kmod context"⟩
  | .newFromNameFail os => some ⟨.moduleFail, "Failed to get the module: " ++ os⟩
  | .noPath => some ⟨.moduleNoexist, "Module '" ++ module_name ++ "' doesn't exist"⟩
  | .insertFail os =>
    some ⟨.moduleFail, "Failed to load the module '" ++ module_name ++ "' with options '"
      ++ options ++ "': " ++ os⟩
  | .ok => none

/-- kbd.c lines 46-91 `load_kernel_module`: the kmod outcome is drawn from
the environment, indexed by the number of earlier load calls. -/
def load_kernel_module (module_name options : String) (error : Option GErr) (w : World) :
    Bool × Option GErr × World :=
  let idx := countLoads w.trace
  let w := w.record (.evLoad module_name options)
  match loadErr module_name options (w.env.loadOutcome idx module_name options) with
  | some e => (false, g_set_err error e, w)
  | none => (true, error, w)

/-- The error `unload_kernel_module` sets for a given kmod outcome
(kbd.c lines 103-143), with the exact g_set_error message of each branch. -/
def unloadErr (module_name : String) : KmodUnloadOutcome → Option GErr
  | .initFail => some ⟨.kmodInitFail, "Failed to initialize kmod context"⟩
  | .enumFail os => some ⟨.moduleFail, "Failed to get the module: " ++ os⟩
  | .notFound => some ⟨.moduleNoexist, "Module '" ++ module_name ++ "' is not loaded"⟩
  | .removeFail os =>
    some ⟨.moduleFail, "Failed to unload the module '" ++ module_name ++ "': " ++ os⟩
  | .ok => none

/-- kbd.c lines 93-148 `unload_kernel_module`. -/
def unload_kernel_module (module_name : String) (error : Option GErr) (w : World) :
    Bool × Option GErr × World :=
  let w := w.record (.evUnload module_name)
  match unloadErr module_name (w.env.unloadOutcome module_name) with
  | some e => (false, g_set_err error e, w)
  | none => (true, error, w)

/-! ### zRAM manager -/

/-- The sysfs path of device i's compression-stream-count control file. -/
def streamPath (i : Nat) : String :=
  "/sys/block/zram" ++ Nat.repr i ++ "/max_comp_streams"

/-- The sysfs path of device i's size/activation control file. -/
def diskPath (i : Nat) : String :=
  "/sys/block/zram" ++ Nat.repr i ++ "/disksize"

/-- kbd.c lines 215-227: write each device's stream count, aborting on the
first failure with the index in the error context. -/
def zramStreamsWrites (ns : Nat → Nat) (error : Option GErr) (w : World) :
    List Nat → Bool × Option GErr × World
  | [] => (true, error, w)
  | i :: rest =>
    let (success, error, w) := echo_str_to_file (Nat.repr (ns i)) (streamPath i) error w
    if success then zramStreamsWrites ns error w rest
    else
      (false,
       g_add_context error
         ("Failed to set number of compression streams for '/dev/zram" ++ Nat.repr i ++ "': "),
       w)

/-- kbd.c lines 230-241: activate each device by writing its size, aborting
on the first failure with the index in the error context. -/
def zramSizesWrites (sizes : Nat → Nat) (error : Option GErr) (w : World) :
    List Nat → Bool × Option GErr × World
  | [] => (true, error, w)
  | i :: rest =>
    let (success, error, w) := echo_str_to_file (Nat.repr (sizes i)) (diskPath i) error w
    if success then zramSizesWrites sizes error w rest
    else
      (false,
       g_add_context error ("Failed to set size for '/dev/zram" ++ Nat.repr i ++ "': "),
       w)

/-- kbd.c lines 213-243: the write phase after the module is loaded — all
stream-count writes (when nstreams is given) strictly before any size
write. -/
def zram_setup_loops (num_devices : Nat) (sizes : Nat → Nat) (nstreams : Option (Nat → Nat))
    (error : Option GErr) (w : World) : Bool × Option GErr × World :=
  match nstreams with
  | some ns =>
    let (success, error, w) := zramStreamsWrites ns error w (List.range num_devices)
    if success then zramSizesWrites sizes error w (List.range num_devices)
    else (false, error, w)
  | none => zramSizesWrites sizes error w (List.range num_devices)

/-- kbd.c lines 182-244 `bd_kbd_zram_create_devices`: load the zram module
with num_devices; on a MODULE_FAIL-kind failure clear the error, unload and
retry the load once (composing "zram module already loaded: " onto an
unload failure); then run the write phase. `sizes`/`nstreams` model the
caller-supplied arrays (documented to have length >= num_devices). -/
def bd_kbd_zram_create_devices (num_devices : Nat) (sizes : Nat → Nat)
    (nstreams : Option (Nat → Nat)) (error : Option GErr) (w : World) :
    Bool × Option GErr × World :=
  let opts := "num_devices=" ++ Nat.repr num_devices
  let (success, error, w) := load_kernel_module "zram" opts error w
  if success then zram_setup_loops num_devices sizes nstreams error w
  else if errMatches error .moduleFail then
    -- maybe it's loaded? Try to unload it first
    let error := g_clear_error error
    let (success, error, w) := unload_kernel_module "zram" error w
    if !success then (false, g_add_context error "zram module already loaded: ", w)
    else
      let (success, error, w) := load_kernel_module "zram" opts error w
      if !success then (false, error, w)
      else zram_setup_loops num_devices sizes nstreams error w
  else (false, error, w)

/-- kbd.c lines 256-258 `bd_kbd_zram_destroy_devices`: unload the module. -/
def bd_kbd_zram_destroy_devices (error : Option GErr) (w : World) :
    Bool × Option GErr × World :=
  unload_kernel_module "zram" error w

/-! ### Bcache manager -/

/-- kbd.c lines 389-402 `bd_kbd_bcache_attach`: strip a "/dev/" lead and
write the cache-set UUID to the device's attach control file. -/
def bd_kbd_bcache_attach (c_set_uuid bcache_device : String) (error : Option GErr)
    (w : World) : Bool × Option GErr × World :=
  let d := stripDev bcache_device
  echo_str_to_file c_set_uuid ("/sys/block/" ++ d ++ "/bcache/attach") error w

/-- kbd.c lines 269-379 `bd_kbd_bcache_create`: run make-bcache, parse the
Set UUID from its output, register the backing device, glob-resolve the
bcache device name and attach. The first component models the
`bcache_device` out-parameter. Two branches return FALSE without
populating the error, exactly as the C does: the `strrchr` miss at lines
325-328 (whose comment wrongly claims the error is populated), and the
pointer-walk miss at lines 356-359; `firstSegment` returning none marks
the undefined pointer subtraction of line 362. -/
def bd_kbd_bcache_create (backing_device cache_device : String) (error : Option GErr)
    (w : World) : Option String × Bool × Option GErr × World :=
  let argv := ["make-bcache", "-B", backing_device, "-C", cache_device]
  let w := w.record (.evExec argv)
  match w.env.execOutcome argv with
  | .error e => (none, false, g_set_err error e, w)
  | .ok output =>
    match find_set_uuid (g_strsplit output) with
    | none =>
      (none, false,
       g_set_error error .bcacheParse ("Failed to determine Set UUID from: " ++ output), w)
    | some uuidCs =>
      let set_uuid := String.mk uuidCs
      match afterLastSlash backing_device.data with
      | none => (none, false, error, w)   -- C comment says "error is already populated"; it is not
      | some shortCs =>
        let dev_name := String.mk shortCs
        let (success, error, w) := echo_str_to_file backing_device "/sys/fs/bcache/register" error w
        if !success then (none, false, error, w)
        else
          let pat := "/sys/block/*/slaves/" ++ dev_name
          let w := w.record (.evGlob pat)
          match w.env.globList pat with
          | [] =>
            (none, false,
             g_set_error error .bcacheSetupFail
               ("Failed to determine bcache device name for '" ++ dev_name ++ "'"), w)
          | path :: _ =>
            match extract_after_three path.data with
            | none => (none, false, error, w)   -- line 356: FALSE, error not populated
            | some d =>
              match firstSegment d with
              | none => (none, false, error, w) -- line 362: undefined pointer subtraction
              | some nameCs =>
                let dev_name := String.mk nameCs
                let (success, error, w) := bd_kbd_bcache_attach set_uuid dev_name error w
                if !success then
                  (none, false,
                   g_add_context error "Failed to attach the cache to the backing device: ", w)
                else (some dev_name, true, error, w)

/-- kbd.c lines 413-465 `bd_kbd_bcache_detach`: strip "/dev/", check the
cache symlink is readable, read it, take the suffix after its last '/' as
the cache-set UUID and write that UUID to the detach control file. The
first component models the `c_set_uuid` out-parameter. On a failed write
the C calls g_set_error over the error already set by echo_str_to_file,
which GLib ignores — `g_set_error` here models that faithfully. -/
def bd_kbd_bcache_detach (bcache_device : String) (error : Option GErr) (w : World) :
    Option String × Bool × Option GErr × World :=
  let d := stripDev bcache_device
  let path := "/sys/block/" ++ d ++ "/bcache/cache"
  let w := w.record (.evAccess path)
  if !(w.env.accessOk path) then
    (none, false,
     g_set_error error .bcacheNotAttached
       ("No cache attached to '" ++ d ++ "' or '" ++ d ++ "' not set up"), w)
  else
    let w := w.record (.evReadLink path)
    match w.env.readLinkOutcome path with
    | .error e =>
      (none, false,
       g_add_context (g_set_err error e) ("Failed to determine cache set UUID for '" ++ d ++ "'"),
       w)
    | .ok link =>
      match afterLastSlash link.data with
      | none =>
        (none, false,
         g_set_error error .bcacheUUID ("Failed to determine cache set UUID for '" ++ d ++ "'"),
         w)
      | some uuidCs =>
        let uuid := String.mk uuidCs
        let (success, error, w) :=
          echo_str_to_file uuid ("/sys/block/" ++ d ++ "/bcache/detach") error w
        if !success then
          (none, false,
           g_set_error error .bcacheDetachFail
             ("Failed to detach '" ++ uuid ++ "' from '" ++ d ++ "'"), w)
        else (some uuid, true, error, w)

/-- kbd.c lines 474-504 `bd_kbd_bcache_destroy`: strip "/dev/", detach (to
learn the cache-set UUID), stop the cache set, then stop the bcache
device. -/
def bd_kbd_bcache_destroy (bcache_device : String) (error : Option GErr) (w : World) :
    Bool × Option GErr × World :=
  let d := stripDev bcache_device
  let (uuidOpt, success, error, w) := bd_kbd_bcache_detach d error w
  if !success then (false, error, w)
  else
    let c_set_uuid := uuidOpt.getD ""   -- detach always fills the out-parameter on success
    let (success, error, w) :=
      echo_str_to_file "1" ("/sys/fs/bcache/" ++ c_set_uuid ++ "/stop") error w
    if !success then (false, g_add_context error "Failed to stop the cache set: ", w)
    else
      let (success, error, w) :=
        echo_str_to_file "1" ("/sys/block/" ++ d ++ "/bcache/stop") error w
      if !success then (false, g_add_context error "Failed to stop the bcache: ", w)
      else (true, error, w)

/-! ### Entry points as the host invokes them: fresh (NULL) GError
out-parameter and an empty request trace. -/

/-- A host call to bd_kbd_zram_create_devices. -/
def runZram (env : Env) (num : Nat) (sizes : Nat → Nat) (nstreams : Option (Nat → Nat)) :
    Bool × Option GErr × World :=
  bd_kbd_zram_create_devices num sizes nstreams none ⟨env, []⟩

/-- A host call to bd_kbd_bcache_create. -/
def runCreate (env : Env) (backing cache : String) :
    Option String × Bool × Option GErr × World :=
  bd_kbd_bcache_create backing cache none ⟨env, []⟩

/-- A host call to bd_kbd_bcache_detach. -/
def runDetach (env : Env) (dev : String) : Option String × Bool × Option GErr × World :=
  bd_kbd_bcache_detach dev none ⟨env, []⟩

/-- A host call to bd_kbd_bcache_destroy. -/
def runDestroy (env : Env) (dev : String) : Bool × Option GErr × World :=
  bd_kbd_bcache_destroy dev none ⟨env, []⟩

/-! ### Basic string and list facts -/

/-- Appending strings appends their character data. -/
theorem strData (a b : String) : (a ++ b).data = a.data ++ b.data := rfl

/-- Rebuilding a string from its data gives the string back. -/
theorem str_eta (s : String) : String.mk s.data = s := rfl

/-- A string whose name part has no '/' is left alone by `stripDev`. -/
theorem stripDev_no_slash (s : String) (h : '/' ∉ s.data) : stripDev s = s := by
  unfold stripDev
  rw [if_neg]
  intro hc
  exact h (List.take_subset 5 s.data (hc ▸ (by decide : '/' ∈ "/dev/".data)))

/-- The pointer walk past the next '/' lands right after the first '/'. -/
theorem dropThroughSlash_concat (xs ys : List Char) (h : '/' ∉ xs) :
    dropThroughSlash (xs ++ '/' :: ys) = some ys := by
  induction xs with
  | nil => simp [dropThroughSlash]
  | cons c cs ih =>
    rw [List.cons_append, dropThroughSlash, if_neg, ih fun hm => h (List.mem_cons_of_mem _ hm)]
    intro hc
    exact h (hc ▸ List.mem_cons_self _ _)

/-- `takeWhile (· ≠ '/')` of a slash-free piece followed by '/' is the piece. -/
theorem takeWhile_concat (xs ys : List Char) (h : '/' ∉ xs) :
    (xs ++ '/' :: ys).takeWhile (fun c => c ≠ '/') = xs := by
  induction xs with
  | nil => simp [List.takeWhile]
  | cons c cs ih =>
    rw [List.cons_append, List.takeWhile_cons, if_pos, ih fun hm => h (List.mem_cons_of_mem _ hm)]
    simp only [decide_eq_true_eq]
    intro hc
    exact h (hc ▸ List.mem_cons_self _ _)

/-- The C substring copy up to the next '/' succeeds on a slash-free piece
followed by '/' and yields exactly that piece. -/
theorem firstSegment_concat (xs ys : List Char) (h : '/' ∉ xs) :
    firstSegment (xs ++ '/' :: ys) = some xs := by
  unfold firstSegment
  rw [if_pos, takeWhile_concat xs ys h]
  simp

/-- The glob-match device-name extraction on a path of the sysfs shape
`/sys/block/<nm>/slaves/<bk>`: skipping three slashes lands on the name. -/
theorem extract_shape (nm bk : String) :
    extract_after_three ("/sys/block/" ++ nm ++ "/slaves/" ++ bk).data
      = some (nm.data ++ '/' :: ("slaves/".data ++ bk.data)) := by
  have e1 : ("/sys/block/" ++ nm ++ "/slaves/" ++ bk).data.drop 1
      = "sys".data ++ '/' :: ("block".data ++ '/' :: (nm.data ++ '/' :: ("slaves/".data ++ bk.data))) := by
    simp only [strData, List.append_assoc]
    rfl
  rw [extract_after_three, e1, dropThroughSlash_concat _ _ (by decide)]
  simp only [Option.some_bind]
  rw [dropThroughSlash_concat _ _ (by decide)]

/-! ### Distinctness of the sysfs control paths -/

/-- Last character of a list ending in a known literal tail. -/
theorem getLast_app (l m : List Char) (c : Char) : (l ++ (m ++ [c])).getLast? = some c := by
  rw [← List.append_assoc]
  exact List.getLast?_concat _

/-- A stream-count control path is never a disksize control path. -/
theorem streamPath_ne_diskPath (i j : Nat) : streamPath i ≠ diskPath j := by
  intro h
  have h2 := congrArg (fun s => s.data.getLast?) h
  have hs : (streamPath i).data.getLast? = some 's' :=
    getLast_app ("/sys/block/zram".data ++ (Nat.repr i).data) "/max_comp_stream".data 's'
  have hd : (diskPath j).data.getLast? = some 'e' :=
    getLast_app ("/sys/block/zram".data ++ (Nat.repr j).data) "/disksiz".data 'e'
  simp only at h2
  rw [hs, hd] at h2
  exact absurd (Option.some.inj h2) (by decide)

/-- The bcache stop path of a device is not the stop path of a cache set. -/
theorem blockStop_ne_fsStop (d u : String) :
    "/sys/block/" ++ d ++ "/bcache/stop" ≠ "/sys/fs/bcache/" ++ u ++ "/stop" := by
  intro h
  have h2 := congrArg (fun s => s.data.take 6) h
  simp only [strData, List.append_assoc] at h2
  rw [List.take_append_of_le_length (by decide),
      List.take_append_of_le_length (by decide)] at h2
  exact absurd h2 (by decide)

/-- The bcache stop path of a device is not its detach path. -/
theorem blockStop_ne_detach (d : String) :
    "/sys/block/" ++ d ++ "/bcache/stop" ≠ "/sys/block/" ++ d ++ "/bcache/detach" := by
  intro h
  have h2 := congrArg String.data h
  simp only [strData, List.append_assoc] at h2
  have h3 := List.append_cancel_left h2
  have h4 := List.append_cancel_left h3
  exact absurd h4 (by decide)

/-- The bcache stop path of a device is not its cache symlink path. -/
theorem blockStop_ne_cache (d : String) :
    "/sys/block/" ++ d ++ "/bcache/stop" ≠ "/sys/block/" ++ d ++ "/bcache/cache" := by
  intro h
  have h2 := congrArg String.data h
  simp only [strData, List.append_assoc] at h2
  have h3 := List.append_cancel_left h2
  have h4 := List.append_cancel_left h3
  exact absurd h4 (by decide)

/-! ### Event classification and trace facts -/

/-- Module-subsystem events (load/unload calls). -/
def isModuleEv : Event → Prop
  | .evLoad _ _ => True
  | .evUnload _ => True
  | _ => False

/-- A write attempt against some device's max_comp_streams control file. -/
def isStreamWriteEv (e : Event) : Prop := ∃ i s, e = Event.evEcho s (streamPath i)

/-- A write attempt against some device's disksize control file. -/
def isDiskWriteEv (e : Event) : Prop := ∃ i s, e = Event.evEcho s (diskPath i)

/-- `countLoads` distributes over trace concatenation. -/
theorem countLoads_append (a b : List Event) :
    countLoads (a ++ b) = countLoads a + countLoads b := by
  simp [countLoads, List.filter_append]

/-- Echo events do not count as load calls. -/
theorem countLoads_echoes (s : List Event) (h : ∀ e ∈ s, ∃ v p, e = Event.evEcho v p) :
    countLoads s = 0 := by
  simp only [countLoads, List.length_eq_zero]
  rw [List.filter_eq_nil_iff]
  intro e he
  rcases h e he with ⟨v, p, rfl⟩
  simp [isLoadEv]

/-! ### Trace shape of the zRAM write loops -/

/-- The streams loop only appends stream-write echo events and leaves the
environment unchanged. -/
theorem zramStreamsWrites_world (ns : Nat → Nat) (error : Option GErr) (w : World)
    (idxs : List Nat) :
    ∃ S, (zramStreamsWrites ns error w idxs).2.2.trace = w.trace ++ S
      ∧ (∀ e ∈ S, isStreamWriteEv e)
      ∧ (zramStreamsWrites ns error w idxs).2.2.env = w.env := by
  induction idxs generalizing error w with
  | nil => exact ⟨[], by simp [zramStreamsWrites], by simp, rfl⟩
  | cons i rest ih =>
    cases hE : echoErr w.env (Nat.repr (ns i)) (streamPath i) with
    | some e =>
      refine ⟨[Event.evEcho (Nat.repr (ns i)) (streamPath i)], ?_, ?_, ?_⟩
      · simp [zramStreamsWrites, echo_str_to_file, World.record, hE]
      · intro x hx
        simp only [List.mem_singleton] at hx
        exact ⟨i, Nat.repr (ns i), hx⟩
      · simp [zramStreamsWrites, echo_str_to_file, World.record, hE]
    | none =>
      obtain ⟨S, h1, h2, h3⟩ :=
        ih error ⟨w.env, w.trace ++ [Event.evEcho (Nat.repr (ns i)) (streamPath i)]⟩
      refine ⟨Event.evEcho (Nat.repr (ns i)) (streamPath i) :: S, ?_, ?_, ?_⟩
      · simp only [zramStreamsWrites, echo_str_to_file, World.record, hE, if_true]
        rw [h1]
        simp
      · intro x hx
        rcases List.mem_cons.mp hx with hx | hx
        · exact ⟨i, Nat.repr (ns i), hx⟩
        · exact h2 x hx
      · simp only [zramStreamsWrites, echo_str_to_file, World.record, hE, if_true]
        exact h3

/-- The sizes loop only appends disksize-write echo events and leaves the
environment unchanged. -/
theorem zramSizesWrites_world (sizes : Nat → Nat) (error : Option GErr) (w : World)
    (idxs : List Nat) :
    ∃ Z, (zramSizesWrites sizes error w idxs).2.2.trace = w.trace ++ Z
      ∧ (∀ e ∈ Z, isDiskWriteEv e)
      ∧ (zramSizesWrites sizes error w idxs).2.2.env = w.env := by
  induction idxs generalizing error w with
  | nil => exact ⟨[], by simp [zramSizesWrites], by simp, rfl⟩
  | cons i rest ih =>
    cases hE : echoErr w.env (Nat.repr (sizes i)) (diskPath i) with
    | some e =>
      refine ⟨[Event.evEcho (Nat.repr (sizes i)) (diskPath i)], ?_, ?_, ?_⟩
      · simp [zramSizesWrites, echo_str_to_file, World.record, hE]
      · intro x hx
        simp only [List.mem_singleton] at hx
        exact ⟨i, Nat.repr (sizes i), hx⟩
      · simp [zramSizesWrites, echo_str_to_file, World.record, hE]
    | none =>
      obtain ⟨Z, h1, h2, h3⟩ :=
        ih error ⟨w.env, w.trace ++ [Event.evEcho (Nat.repr (sizes i)) (diskPath i)]⟩
      refine ⟨Event.evEcho (Nat.repr (sizes i)) (diskPath i) :: Z, ?_, ?_, ?_⟩
      · simp only [zramSizesWrites, echo_str_to_file, World.record, hE, if_true]
        rw [h1]
        simp
      · intro x hx
        rcases List.mem_cons.mp hx with hx | hx
        · exact ⟨i, Nat.repr (sizes i), hx⟩
        · exact h2 x hx
      · simp only [zramSizesWrites, echo_str_to_file, World.record, hE, if_true]
        exact h3

/-- The whole zRAM write phase appends all its stream writes strictly
before all its size writes. -/
theorem zram_setup_loops_trace (num : Nat) (sizes : Nat → Nat) (nstreams : Option (Nat → Nat))
    (error : Option GErr) (w : World) :
    ∃ S Z, (zram_setup_loops num sizes nstreams error w).2.2.trace = w.trace ++ S ++ Z
      ∧ (∀ e ∈ S, isStreamWriteEv e) ∧ (∀ e ∈ Z, isDiskWriteEv e) := by
  cases nstreams with
  | none =>
    obtain ⟨Z, h1, h2, _⟩ := zramSizesWrites_world sizes error w (List.range num)
    exact ⟨[], Z, by simpa [zram_setup_loops] using h1, by simp, h2⟩
  | some ns =>
    rcases hrun : zramStreamsWrites ns error w (List.range num) with ⟨success, error2, w2⟩
    obtain ⟨S, h1, h2, h3⟩ := zramStreamsWrites_world ns error w (List.range num)
    rw [hrun] at h1 h3
    cases success with
    | false =>
      refine ⟨S, [], ?_, h2, by simp⟩
      simp only [zram_setup_loops, hrun, if_false]
      simpa using h1
    | true =>
      obtain ⟨Z, g1, g2, _⟩ := zramSizesWrites_world sizes error2 w2 (List.range num)
      refine ⟨S, Z, ?_, h2, g2⟩
      simp only [zram_setup_loops, hrun, if_true]
      rw [g1]
      simp only at h1
      rw [h1, List.append_assoc]

/-! ### The zRAM load phase, case by case -/

/-- A successful first load runs straight into the write phase. -/
theorem zram_create_load_ok (env : Env) (num : Nat) (sizes : Nat → Nat)
    (nstreams : Option (Nat → Nat))
    (h : env.loadOutcome 0 "zram" ("num_devices=" ++ Nat.repr num) = .ok) :
    runZram env num sizes nstreams
      = zram_setup_loops num sizes nstreams none
          ⟨env, [Event.evLoad "zram" ("num_devices=" ++ Nat.repr num)]⟩ := by
  simp [runZram, bd_kbd_zram_create_devices, load_kernel_module, countLoads, isLoadEv,
        World.record, h, loadErr]

/-- First load failed with the MODULE_FAIL kind, the recovery unload and the
retried load both succeeded: the run continues into the write phase with
three module events on the trace. -/
theorem zram_create_fallback_ok (env : Env) (num : Nat) (sizes : Nat → Nat)
    (nstreams : Option (Nat → Nat))
    (h : (env.loadOutcome 0 "zram" ("num_devices=" ++ Nat.repr num)).errKind
          = some ErrKind.moduleFail)
    (hu : env.unloadOutcome "zram" = .ok)
    (h2 : env.loadOutcome 1 "zram" ("num_devices=" ++ Nat.repr num) = .ok) :
    runZram env num sizes nstreams
      = zram_setup_loops num sizes nstreams none
          ⟨env, [Event.evLoad "zram" ("num_devices=" ++ Nat.repr num), Event.evUnload "zram",
                 Event.evLoad "zram" ("num_devices=" ++ Nat.repr num)]⟩ := by
  rcases hl : env.loadOutcome 0 "zram" ("num_devices=" ++ Nat.repr num) with _ | os | _ | os | _ <;>
    rw [hl] at h <;> simp only [KmodLoadOutcome.errKind] at h <;>
    first
      | (exact absurd (Option.some.inj h) (by decide))
      | (exact absurd h (by decide))
      | (simp [runZram, bd_kbd_zram_create_devices, load_kernel_module, unload_kernel_module,
               countLoads, isLoadEv, World.record, hl, hu, h2, loadErr, unloadErr, errMatches,
               g_set_err, g_clear_error])

/-- First load failed with the MODULE_FAIL kind and the recovery unload
failed too: the run aborts with the composed "already loaded" error and
never retries the load. -/
theorem zram_create_unload_fail (env : Env) (num : Nat) (sizes : Nat → Nat)
    (nstreams : Option (Nat → Nat)) (eu : GErr)
    (h : (env.loadOutcome 0 "zram" ("num_devices=" ++ Nat.repr num)).errKind
          = some ErrKind.moduleFail)
    (hu : unloadErr "zram" (env.unloadOutcome "zram") = some eu) :
    runZram env num sizes nstreams
      = (false, some ⟨eu.kind, "zram module already loaded: " ++ eu.msg⟩,
         ⟨env, [Event.evLoad "zram" ("num_devices=" ++ Nat.repr num), Event.evUnload "zram"]⟩) := by
  rcases hl : env.loadOutcome 0 "zram" ("num_devices=" ++ Nat.repr num) with _ | os | _ | os | _ <;>
    rw [hl] at h <;> simp only [KmodLoadOutcome.errKind] at h <;>
    first
      | (exact absurd (Option.some.inj h) (by decide))
      | (exact absurd h (by decide))
      | (simp [runZram, bd_kbd_zram_create_devices, load_kernel_module, unload_kernel_module,
               countLoads, isLoadEv, World.record, hl, hu, loadErr, errMatches,
               g_set_err, g_clear_error, g_add_context])

/-- First load failed with the MODULE_FAIL kind, the unload succeeded, and
the retried load failed: that retry's error is surfaced unchanged. -/
theorem zram_create_retry_fail (env : Env) (num : Nat) (sizes : Nat → Nat)
    (nstreams : Option (Nat → Nat)) (e2 : GErr)
    (h : (env.loadOutcome 0 "zram" ("num_devices=" ++ Nat.repr num)).errKind
          = some ErrKind.moduleFail)
    (hu : env.unloadOutcome "zram" = .ok)
    (h2 : loadErr "zram" ("num_devices=" ++ Nat.repr num)
            (env.loadOutcome 1 "zram" ("num_devices=" ++ Nat.repr num)) = some e2) :
    runZram env num sizes nstreams
      = (false, some e2,
         ⟨env, [Event.evLoad "zram" ("num_devices=" ++ Nat.repr num), Event.evUnload "zram",
                Event.evLoad "zram" ("num_devices=" ++ Nat.repr num)]⟩) := by
  rcases hl : env.loadOutcome 0 "zram" ("num_devices=" ++ Nat.repr num) with _ | os | _ | os | _ <;>
    rw [hl] at h <;> simp only [KmodLoadOutcome.errKind, Option.some.injEq] at h <;>
    first
      | (exact absurd h (by decide))
      | (rcases hl1 : env.loadOutcome 1 "zram" ("num_devices=" ++ Nat.repr num)
            with _ | os2 | _ | os2 | _ <;>
          rw [hl1] at h2 <;> simp only [loadErr] at h2 <;>
          first
            | (exact Option.noConfusion h2)
            | (injection h2 with h3
               subst h3
               simp [runZram, bd_kbd_zram_create_devices, load_kernel_module,
                     unload_kernel_module, countLoads, isLoadEv, World.record, hl, hl1, hu,
                     loadErr, unloadErr, errMatches, g_set_err, g_clear_error]))

/-- A first-load failure of any kind other than MODULE_FAIL is surfaced
directly: no unload, no retry. -/
theorem zram_create_other_fail (env : Env) (num : Nat) (sizes : Nat → Nat)
    (nstreams : Option (Nat → Nat)) (k : ErrKind)
    (hk : (env.loadOutcome 0 "zram" ("num_devices=" ++ Nat.repr num)).errKind = some k)
    (hne : k ≠ ErrKind.moduleFail) :
    runZram env num sizes nstreams
      = (false,
         loadErr "zram" ("num_devices=" ++ Nat.repr num)
           (env.loadOutcome 0 "zram" ("num_devices=" ++ Nat.repr num)),
         ⟨env, [Event.evLoad "zram" ("num_devices=" ++ Nat.repr num)]⟩) := by
  rcases hl : env.loadOutcome 0 "zram" ("num_devices=" ++ Nat.repr num) with _ | os | _ | os | _ <;>
    rw [hl] at hk <;> simp only [KmodLoadOutcome.errKind, Option.some.injEq] at hk <;>
    first
      | (exact absurd hk (by simp))
      | (exact absurd hk fun hkk => hne hkk.symm)
      | (simp [runZram, bd_kbd_zram_create_devices, load_kernel_module, countLoads, isLoadEv,
               World.record, hl, loadErr, errMatches, g_set_err])

/-- The module phase of a zRAM create succeeds: either the first load is
ok, or it fails with the MODULE_FAIL kind and both the unload and the
retried load succeed. -/
def loadPhaseOk (env : Env) (num : Nat) : Prop :=
  env.loadOutcome 0 "zram" ("num_devices=" ++ Nat.repr num) = .ok ∨
  ((env.loadOutcome 0 "zram" ("num_devices=" ++ Nat.repr num)).errKind = some ErrKind.moduleFail
    ∧ env.unloadOutcome "zram" = .ok
    ∧ env.loadOutcome 1 "zram" ("num_devices=" ++ Nat.repr num) = .ok)

/-- Splitting `List.range` at a member. -/
theorem range_split (i num : Nat) (h : i < num) :
    ∃ l2, List.range num = List.range i ++ i :: l2 := by
  induction num with
  | zero => exact absurd h (Nat.not_lt_zero i)
  | succ n ih =>
    rcases Nat.lt_succ_iff_lt_or_eq.mp h with h2 | h2
    · rcases ih h2 with ⟨l2, hl⟩
      exact ⟨l2 ++ [n], by simp [List.range_succ, hl]⟩
    · subst h2
      exact ⟨[], by simp [List.range_succ]⟩

/-- The streams loop on a list whose writes succeed up to the first failing
index i aborts at i: FALSE, the error wraps i into the context message, and
only the stream writes up to and including i are on the trace. -/
theorem zramStreamsWrites_firstFail (ns : Nat → Nat) (w : World) (l1 : List Nat) (i : Nat)
    (l2 : List Nat) (e : GErr)
    (hok : ∀ j ∈ l1, echoErr w.env (Nat.repr (ns j)) (streamPath j) = none)
    (hf : echoErr w.env (Nat.repr (ns i)) (streamPath i) = some e) :
    zramStreamsWrites ns none w (l1 ++ i :: l2)
      = (false,
         some ⟨e.kind,
           "Failed to set number of compression streams for '/dev/zram" ++ Nat.repr i ++ "': "
             ++ e.msg⟩,
         ⟨w.env, w.trace
            ++ (l1 ++ [i]).map (fun j => Event.evEcho (Nat.repr (ns j)) (streamPath j))⟩) := by
  induction l1 generalizing w with
  | nil =>
    simp [zramStreamsWrites, echo_str_to_file, World.record, hf, g_set_err, g_add_context]
  | cons j js ih =>
    have hj := hok j (List.mem_cons_self _ _)
    simp only [List.cons_append, List.append_eq, zramStreamsWrites, echo_str_to_file,
      World.record, hj, if_true]
    rw [ih ⟨w.env, w.trace ++ [Event.evEcho (Nat.repr (ns j)) (streamPath j)]⟩
          (fun x hx => hok x (List.mem_cons_of_mem _ hx)) hf]
    simp

/-! ### Concrete environments for closed evaluations -/

/-- An environment where every external request succeeds. -/
def allOkEnv : Env where
  loadOutcome := fun _ _ _ => .ok
  unloadOutcome := fun _ => .ok
  openOutcome := fun _ => .ok ()
  writeChars := fun _ _ => .ok ()
  flushClose := fun _ _ => .ok ()
  execOutcome := fun _ => .ok ""
  globList := fun _ => []
  accessOk := fun _ => true
  readLinkOutcome := fun _ => .ok ""

/-- make-bcache prints a Set UUID, everything else succeeds. -/
def envParseOk : Env :=
  { allOkEnv with execOutcome := fun _ => .ok "Set UUID: abcd" }

/-- The attached cache symlink resolves, but the write of the UUID to the
detach control file fails with EIO. -/
def envDetachEIO : Env :=
  { allOkEnv with
      readLinkOutcome := fun _ => .ok "/sys/fs/bcache/abcd-12",
      writeChars := fun _ _ => .error "EIO" }

/-- C1: the spec says every failure path of the public operations populates
the error out-parameter with a typed error, naming in particular the
bcacheCreate path taken when backingDevice has no '/'. The code violates
this: with the tool reporting "Set UUID: abcd" and backing device "sdb1"
(no '/'), `strrchr` misses, and kbd.c lines 325-328 return FALSE leaving
the GError NULL even though the comment there claims "error is already
populated". -/
theorem thmC1_bcache_create_unpopulated_error :
    (runCreate envParseOk "sdb1" "/dev/sdc1").2.1 = false
    ∧ (runCreate envParseOk "sdb1" "/dev/sdc1").2.2.1 = none := by
  exact ⟨rfl, rfl⟩

/-- C6: on a failed detach write the claim expects a DetachFailed error
naming the UUID and device. The code calls g_set_error with
BD_KBD_ERROR_BCACHE_DETACH_FAIL at kbd.c line 452, but the GError is
already set by the failed echo_str_to_file, so GLib discards the new error
(and warns): the caller sees the I/O error of the write, not DetachFailed. -/
theorem thmC6_detach_write_failure_error_kind :
    (runDetach envDetachEIO "bcache0").2.1 = false
    ∧ (runDetach envDetachEIO "bcache0").2.2.1
        = some ⟨ErrKind.ioError,
            "Failed to write 'abcd-12' to file '/sys/block/bcache0/bcache/detach': EIO"⟩ := by
  exact ⟨rfl, rfl⟩

/-- Open fails with EACCES, used to witness the sysfs writer contract. -/
def envOpenEACCES : Env := { allOkEnv with openOutcome := fun _ => .error "EACCES" }

/-- C9: the sysfs writer opens the target file, writes the value as given,
flushes and closes; it returns success iff all three steps succeed, and a
failing step surfaces as an IOError carrying the underlying OS error (open
and write failures under the "Failed to write" context, flush/close
failures under the "Failed to flush and close" context). The attempt is
recorded as exactly one write event. -/
theorem thmC9_echo_contract (env : Env) (str path : String) (tr : List Event) :
    ((echo_str_to_file str path none ⟨env, tr⟩).1 = true ↔
      (env.openOutcome path = .ok () ∧ env.writeChars str path = .ok ()
        ∧ env.flushClose str path = .ok ()))
    ∧ ((echo_str_to_file str path none ⟨env, tr⟩).1 = true →
        (echo_str_to_file str path none ⟨env, tr⟩).2.1 = none)
    ∧ (∀ os, env.openOutcome path = .error os →
        (echo_str_to_file str path none ⟨env, tr⟩).1 = false
        ∧ (echo_str_to_file str path none ⟨env, tr⟩).2.1
            = some ⟨ErrKind.ioError,
                "Failed to write '" ++ str ++ "' to file '" ++ path ++ "': " ++ os⟩)
    ∧ (∀ os, env.openOutcome path = .ok () → env.writeChars str path = .error os →
        (echo_str_to_file str path none ⟨env, tr⟩).1 = false
        ∧ (echo_str_to_file str path none ⟨env, tr⟩).2.1
            = some ⟨ErrKind.ioError,
                "Failed to write '" ++ str ++ "' to file '" ++ path ++ "': " ++ os⟩)
    ∧ (∀ os, env.openOutcome path = .ok () → env.writeChars str path = .ok () →
        env.flushClose str path = .error os →
        (echo_str_to_file str path none ⟨env, tr⟩).1 = false
        ∧ (echo_str_to_file str path none ⟨env, tr⟩).2.1
            = some ⟨ErrKind.ioError,
                "Failed to flush and close the file '" ++ path ++ "': " ++ os⟩)
    ∧ (echo_str_to_file str path none ⟨env, tr⟩).2.2.trace = tr ++ [Event.evEcho str path] := by
  rcases ho : env.openOutcome path with os | ⟨⟩
  · simp [echo_str_to_file, echoErr, World.record, g_set_err, ho]
  · rcases hw : env.writeChars str path with os | ⟨⟩
    · simp [echo_str_to_file, echoErr, World.record, g_set_err, ho, hw]
    · rcases hf : env.flushClose str path with os | ⟨⟩
      · simp [echo_str_to_file, echoErr, World.record, g_set_err, ho, hw, hf]
      · simp [echo_str_to_file, echoErr, World.record, g_set_err, ho, hw, hf]

/-- Witness for C9: a concrete failing open yields the IOError with the
write context and the OS error. -/
theorem thmC9_witness :
    (echo_str_to_file "1" "/sys/p" none ⟨envOpenEACCES, []⟩).1 = false
    ∧ (echo_str_to_file "1" "/sys/p" none ⟨envOpenEACCES, []⟩).2.1
        = some ⟨ErrKind.ioError, "Failed to write '1' to file '/sys/p': EACCES"⟩ :=
  (thmC9_echo_contract envOpenEACCES "1" "/sys/p" []).2.2.1 "EACCES" rfl

/-- C10: on any glob match of the sysfs shape /sys/block/<nm>/slaves/<bk>
(name component slash-free) the fixed-offset extraction is total: skipping
three '/' characters lands on the name (never NULL), the search for the
next '/' always finds the one before "slaves", and the substring copy gets
the non-negative length of the name — the NULL branch is unreachable. -/
theorem thmC10_extraction_total (nm bk : String) (h : '/' ∉ nm.data) :
    extract_after_three ("/sys/block/" ++ nm ++ "/slaves/" ++ bk).data
      = some (nm.data ++ '/' :: ("slaves/".data ++ bk.data))
    ∧ firstSegment (nm.data ++ '/' :: ("slaves/".data ++ bk.data)) = some nm.data :=
  ⟨extract_shape nm bk, firstSegment_concat nm.data _ h⟩

/-- Witness for C10 at the spec's own example path. -/
theorem thmC10_witness :
    extract_after_three ("/sys/block/" ++ "bcache0" ++ "/slaves/" ++ "sdb1").data
      = some ("bcache0".data ++ '/' :: ("slaves/".data ++ "sdb1".data))
    ∧ firstSegment ("bcache0".data ++ '/' :: ("slaves/".data ++ "sdb1".data))
      = some "bcache0".data :=
  thmC10_extraction_total "bcache0" "sdb1" (by decide)

/-! ### The Set-UUID line scan, characterized -/

/-- The scan returns nothing exactly when no line matches. -/
theorem find_set_uuid_none_iff (lines : List (List Char)) :
    find_set_uuid lines = none ↔ ∀ l ∈ lines, searchSetUUID l = none := by
  induction lines with
  | nil => simp [find_set_uuid]
  | cons l ls ih =>
    cases hS : searchSetUUID l with
    | some v => simp [find_set_uuid, hS]
    | none => simp [find_set_uuid, hS, ih]

/-- The scan returns the capture of the first matching line. -/
theorem find_set_uuid_some_iff (lines : List (List Char)) (u : List Char) :
    find_set_uuid lines = some u ↔
      ∃ (i : Nat) (li : List Char), lines[i]? = some li ∧ searchSetUUID li = some u
        ∧ ∀ (j : Nat) (lj : List Char), j < i → lines[j]? = some lj → searchSetUUID lj = none := by
  induction lines with
  | nil => simp [find_set_uuid]
  | cons l ls ih =>
    cases hS : searchSetUUID l with
    | some v =>
      simp only [find_set_uuid, hS]
      constructor
      · intro h
        refine ⟨0, l, List.getElem?_cons_zero, ?_, ?_⟩
        · rw [hS]; exact h
        · intro j lj hj _
          exact absurd hj (Nat.not_lt_zero j)
      · rintro ⟨i, li, hget, hm, hprev⟩
        cases i with
        | zero =>
          rw [List.getElem?_cons_zero] at hget
          injection hget with h2
          subst h2
          rw [hS] at hm
          exact hm
        | succ k =>
          have h0 := hprev 0 l (Nat.succ_pos k) List.getElem?_cons_zero
          rw [hS] at h0
          exact Option.noConfusion h0
    | none =>
      simp only [find_set_uuid, hS]
      rw [ih]
      constructor
      · rintro ⟨i, li, hget, hm, hprev⟩
        refine ⟨i + 1, li, by simpa using hget, hm, ?_⟩
        intro j lj hj hg
        cases j with
        | zero =>
          rw [List.getElem?_cons_zero] at hg
          injection hg with h2
          subst h2
          exact hS
        | succ k =>
          exact hprev k lj (by omega) (by simpa using hg)
      · rintro ⟨i, li, hget, hm, hprev⟩
        cases i with
        | zero =>
          rw [List.getElem?_cons_zero] at hget
          injection hget with h2
          subst h2
          rw [hS] at hm
          exact Option.noConfusion hm
        | succ k =>
          refine ⟨k, li, by simpa using hget, hm, ?_⟩
          intro j lj hj hg
          exact hprev (j + 1) lj (by omega) (by simpa using hg)

/-- C8: the Set-UUID parser matches the split lines in order against the
pattern and returns the capture group of the first matching line; it fails
exactly when no line matches. -/
theorem thmC8_set_uuid_scan (lines : List (List Char)) :
    (∀ u, find_set_uuid lines = some u ↔
      ∃ (i : Nat) (li : List Char), lines[i]? = some li ∧ searchSetUUID li = some u
        ∧ ∀ (j : Nat) (lj : List Char), j < i → lines[j]? = some lj → searchSetUUID lj = none)
    ∧ (find_set_uuid lines = none ↔ ∀ l ∈ lines, searchSetUUID l = none) :=
  ⟨fun u => find_set_uuid_some_iff lines u, find_set_uuid_none_iff lines⟩

/-- Witness for C8: on three concrete lines the parser returns the capture
of the first (second line) match and ignores the later one. -/
theorem thmC8_witness :
    find_set_uuid ["foo".data, "Set UUID: ab-1".data, "Set UUID: zz".data]
      = some "ab-1".data := by
  apply ((thmC8_set_uuid_scan ["foo".data, "Set UUID: ab-1".data, "Set UUID: zz".data]).1
    "ab-1".data).mpr
  refine ⟨1, "Set UUID: ab-1".data, by simp, by decide, ?_⟩
  intro j lj hj hg
  obtain rfl : j = 0 := by omega
  rw [List.getElem?_cons_zero] at hg
  injection hg with h2
  subst h2
  decide

/-! ### Bcache create: parse failure and glob resolution -/

/-- C5: when the tool output has no Set UUID line, bcacheCreate fails with
the BcacheParseError kind, the raw output in the message, and the trace
holds nothing but the tool invocation — no sysfs write at all; moreover in
any run, a write to /sys/fs/bcache/register implies the Set UUID had been
parsed successfully before it. -/
theorem thmC5_parse_failure_no_writes (env : Env) (backing cache : String) :
    (∀ out, env.execOutcome ["make-bcache", "-B", backing, "-C", cache] = .ok out →
      find_set_uuid (g_strsplit out) = none →
      (runCreate env backing cache).2.1 = false
      ∧ (runCreate env backing cache).2.2.1
          = some ⟨ErrKind.bcacheParse, "Failed to determine Set UUID from: " ++ out⟩
      ∧ (runCreate env backing cache).2.2.2.trace
          = [Event.evExec ["make-bcache", "-B", backing, "-C", cache]])
    ∧ (∀ s, Event.evEcho s "/sys/fs/bcache/register"
          ∈ (runCreate env backing cache).2.2.2.trace →
        ∃ out u, env.execOutcome ["make-bcache", "-B", backing, "-C", cache] = .ok out
          ∧ find_set_uuid (g_strsplit out) = some u) := by
  constructor
  · intro out hx hp
    simp [runCreate, bd_kbd_bcache_create, World.record, hx, hp, g_set_error]
  · intro s hs
    rcases hx : env.execOutcome ["make-bcache", "-B", backing, "-C", cache] with e | out
    · exfalso
      simp [runCreate, bd_kbd_bcache_create, World.record, hx] at hs
    · cases hp : find_set_uuid (g_strsplit out) with
      | none =>
        exfalso
        simp [runCreate, bd_kbd_bcache_create, World.record, hx, hp, g_set_error] at hs
      | some u => exact ⟨out, u, rfl, hp⟩

/-- make-bcache prints no Set UUID line at all. -/
def envNoUUID : Env := { allOkEnv with execOutcome := fun _ => .ok "whatever" }

/-- Witness for C5: with output "whatever" the create call fails with the
parse error carrying the raw output, and only the exec is on the trace. -/
theorem thmC5_witness :
    (runCreate envNoUUID "/dev/sdb1" "/dev/sdc1").2.1 = false
    ∧ (runCreate envNoUUID "/dev/sdb1" "/dev/sdc1").2.2.1
        = some ⟨ErrKind.bcacheParse, "Failed to determine Set UUID from: " ++ "whatever"⟩
    ∧ (runCreate envNoUUID "/dev/sdb1" "/dev/sdc1").2.2.2.trace
        = [Event.evExec ["make-bcache", "-B", "/dev/sdb1", "-C", "/dev/sdc1"]] :=
  (thmC5_parse_failure_no_writes envNoUUID "/dev/sdb1" "/dev/sdc1").1 "whatever" rfl (by decide)

/-- C7: the reverse lookup of the bcache device name globs
/sys/block/STAR/slaves/<short>, fails with SetupFailed on zero matches,
and on one or more matches takes the first, extracting its third
'/'-delimited component as the device name (which create then attaches and
returns). -/
theorem thmC7_glob_resolution (env : Env) (backing cache out bk nm : String)
    (uuidCs shortCs : List Char) (rest : List String)
    (hx : env.execOutcome ["make-bcache", "-B", backing, "-C", cache] = .ok out)
    (hf : find_set_uuid (g_strsplit out) = some uuidCs)
    (hs : afterLastSlash backing.data = some shortCs)
    (hreg : echoErr env backing "/sys/fs/bcache/register" = none) :
    (env.globList ("/sys/block/*/slaves/" ++ String.mk shortCs) = [] →
      (runCreate env backing cache).2.1 = false
      ∧ (runCreate env backing cache).2.2.1
          = some ⟨ErrKind.bcacheSetupFail,
              "Failed to determine bcache device name for '" ++ String.mk shortCs ++ "'"⟩)
    ∧ (env.globList ("/sys/block/*/slaves/" ++ String.mk shortCs)
          = ("/sys/block/" ++ nm ++ "/slaves/" ++ bk) :: rest →
        '/' ∉ nm.data →
        Event.evEcho (String.mk uuidCs) ("/sys/block/" ++ nm ++ "/bcache/attach")
            ∈ (runCreate env backing cache).2.2.2.trace
        ∧ (echoErr env (String.mk uuidCs) ("/sys/block/" ++ nm ++ "/bcache/attach") = none →
            (runCreate env backing cache).1 = some nm
            ∧ (runCreate env backing cache).2.1 = true)) := by
  constructor
  · intro hg
    simp [runCreate, bd_kbd_bcache_create, World.record, echo_str_to_file, hx, hf, hs, hreg,
          hg, g_set_error]
  · intro hg hnm
    have hex := extract_shape nm bk
    have hfs := firstSegment_concat nm.data ("slaves/".data ++ bk.data) hnm
    have hstrip : stripDev nm = nm := stripDev_no_slash nm hnm
    simp only [strData, List.append_assoc, List.cons_append, List.nil_append] at hex hfs
    cases hA : echoErr env (String.mk uuidCs) ("/sys/block/" ++ nm ++ "/bcache/attach") with
    | some e =>
      refine ⟨?_, ?_⟩
      · simp [runCreate, bd_kbd_bcache_create, bd_kbd_bcache_attach, World.record,
              echo_str_to_file, hx, hf, hs, hreg, hg, hex, hfs, hstrip, str_eta, hA]
      · intro h0
        exact Option.noConfusion h0
    | none =>
      refine ⟨?_, fun _ => ?_⟩
      · simp [runCreate, bd_kbd_bcache_create, bd_kbd_bcache_attach, World.record,
              echo_str_to_file, hx, hf, hs, hreg, hg, hex, hfs, hstrip, str_eta, hA]
      · constructor <;>
          simp [runCreate, bd_kbd_bcache_create, bd_kbd_bcache_attach, World.record,
                echo_str_to_file, hx, hf, hs, hreg, hg, hex, hfs, hstrip, str_eta, hA]

/-- make-bcache prints a Set UUID and the glob finds the spec's example
slave path. -/
def envGlobOk : Env :=
  { allOkEnv with
      execOutcome := fun _ => .ok "Set UUID: abcd",
      globList := fun _ => ["/sys/block/bcache0/slaves/sdb1"] }

/-- Witness for C7: the example run resolves bcache0 from the glob match,
attaches, and returns it. -/
theorem thmC7_witness :
    Event.evEcho (String.mk "abcd".data) ("/sys/block/" ++ "bcache0" ++ "/bcache/attach")
        ∈ (runCreate envGlobOk "/dev/sdb1" "/dev/sdc1").2.2.2.trace
    ∧ (runCreate envGlobOk "/dev/sdb1" "/dev/sdc1").1 = some "bcache0" := by
  have T := thmC7_glob_resolution envGlobOk "/dev/sdb1" "/dev/sdc1" "Set UUID: abcd" "sdb1"
    "bcache0" "abcd".data "sdb1".data [] rfl (by decide) (by decide) rfl
  have T2 := T.2 rfl (by decide)
  exact ⟨T2.1, (T2.2 rfl).1⟩

/-! ### Bcache destroy: stop ordering -/

/-- C4: bcacheDestroy on a device whose attached cache set resolves to
UUID u performs the detach write first, then writes "1" to the cache
set's stop file, and only afterwards writes "1" to the device's own
bcache stop file; if the cache-set stop write fails, the operation
returns failure with the "stop the cache set" context and the bcache
stop write is never attempted. -/
theorem thmC4_destroy_stop_ordering (env : Env) (device link uuid : String)
    (hd : stripDev (stripDev device) = stripDev device)
    (ha : env.accessOk ("/sys/block/" ++ stripDev device ++ "/bcache/cache") = true)
    (hl : env.readLinkOutcome ("/sys/block/" ++ stripDev device ++ "/bcache/cache") = .ok link)
    (hu : afterLastSlash link.data = some uuid.data)
    (hw : echoErr env uuid ("/sys/block/" ++ stripDev device ++ "/bcache/detach") = none) :
    (echoErr env "1" ("/sys/fs/bcache/" ++ uuid ++ "/stop") = none →
      (runDestroy env device).2.2.trace
        = [Event.evAccess ("/sys/block/" ++ stripDev device ++ "/bcache/cache"),
           Event.evReadLink ("/sys/block/" ++ stripDev device ++ "/bcache/cache"),
           Event.evEcho uuid ("/sys/block/" ++ stripDev device ++ "/bcache/detach"),
           Event.evEcho "1" ("/sys/fs/bcache/" ++ uuid ++ "/stop"),
           Event.evEcho "1" ("/sys/block/" ++ stripDev device ++ "/bcache/stop")])
    ∧ (∀ e, echoErr env "1" ("/sys/fs/bcache/" ++ uuid ++ "/stop") = some e →
        (runDestroy env device).1 = false
        ∧ (runDestroy env device).2.1
            = some ⟨e.kind, "Failed to stop the cache set: " ++ e.msg⟩
        ∧ ∀ s, Event.evEcho s ("/sys/block/" ++ stripDev device ++ "/bcache/stop")
            ∉ (runDestroy env device).2.2.trace) := by
  constructor
  · intro hcs
    cases hbs : echoErr env "1" ("/sys/block/" ++ stripDev device ++ "/bcache/stop") <;>
      simp [runDestroy, bd_kbd_bcache_destroy, bd_kbd_bcache_detach, echo_str_to_file,
            World.record, hd, ha, hl, hu, hw, hcs, hbs, str_eta, g_set_err, g_add_context]
  · intro e hcs
    have htr : (runDestroy env device).2.2.trace
        = [Event.evAccess ("/sys/block/" ++ stripDev device ++ "/bcache/cache"),
           Event.evReadLink ("/sys/block/" ++ stripDev device ++ "/bcache/cache"),
           Event.evEcho uuid ("/sys/block/" ++ stripDev device ++ "/bcache/detach"),
           Event.evEcho "1" ("/sys/fs/bcache/" ++ uuid ++ "/stop")] := by
      simp [runDestroy, bd_kbd_bcache_destroy, bd_kbd_bcache_detach, echo_str_to_file,
            World.record, hd, ha, hl, hu, hw, hcs, str_eta, g_set_err, g_add_context]
    refine ⟨?_, ?_, ?_⟩
    · simp [runDestroy, bd_kbd_bcache_destroy, bd_kbd_bcache_detach, echo_str_to_file,
            World.record, hd, ha, hl, hu, hw, hcs, str_eta, g_set_err, g_add_context]
    · simp [runDestroy, bd_kbd_bcache_destroy, bd_kbd_bcache_detach, echo_str_to_file,
            World.record, hd, ha, hl, hu, hw, hcs, str_eta, g_set_err, g_add_context]
    · intro s hmem
      rw [htr] at hmem
      rcases List.mem_cons.mp hmem with h1 | hmem2
      · exact Event.noConfusion h1
      rcases List.mem_cons.mp hmem2 with h2 | hmem3
      · exact Event.noConfusion h2
      rcases List.mem_cons.mp hmem3 with h3 | hmem4
      · injection h3 with hs3 hp3
        exact blockStop_ne_detach (stripDev device) hp3
      rcases List.mem_cons.mp hmem4 with h4 | hmem5
      · injection h4 with hs4 hp4
        exact blockStop_ne_fsStop (stripDev device) uuid hp4
      · exact List.not_mem_nil _ hmem5

/-- A device with an attached cache set whose symlink points at the abcd
cache set; every write succeeds. -/
def envDestroyOk : Env := { allOkEnv with readLinkOutcome := fun _ => .ok "/sys/fs/bcache/abcd" }

/-- Witness for C4: the destroy run issues detach, cache-set stop and
bcache stop in that order. -/
theorem thmC4_witness :
    (runDestroy envDestroyOk "/dev/bcache0").2.2.trace
      = [Event.evAccess ("/sys/block/" ++ stripDev "/dev/bcache0" ++ "/bcache/cache"),
         Event.evReadLink ("/sys/block/" ++ stripDev "/dev/bcache0" ++ "/bcache/cache"),
         Event.evEcho "abcd" ("/sys/block/" ++ stripDev "/dev/bcache0" ++ "/bcache/detach"),
         Event.evEcho "1" ("/sys/fs/bcache/" ++ "abcd" ++ "/stop"),
         Event.evEcho "1" ("/sys/block/" ++ stripDev "/dev/bcache0" ++ "/bcache/stop")] :=
  (thmC4_destroy_stop_ordering envDestroyOk "/dev/bcache0" "/sys/fs/bcache/abcd" "abcd"
    rfl rfl rfl (by decide) rfl).1 rfl

/-! ### C2 and C3: the zRAM manager -/

/-- `loadErr` is silent exactly on a successful load. -/
theorem loadErr_eq_none (name opts : String) (o : KmodLoadOutcome)
    (h : loadErr name opts o = none) : o = .ok := by
  cases o <;> simp [loadErr] at h ⊢

/-- `unloadErr` is silent exactly on a successful unload. -/
theorem unloadErr_eq_none (name : String) (o : KmodUnloadOutcome)
    (h : unloadErr name o = none) : o = .ok := by
  cases o <;> simp [unloadErr] at h ⊢

/-- The kind of the error a failing load reports agrees with the outcome's
error kind. -/
theorem loadErr_kind (name opts : String) (o : KmodLoadOutcome) (e : GErr)
    (h : loadErr name opts o = some e) : o.errKind = some e.kind := by
  cases o <;> simp_all [loadErr, KmodLoadOutcome.errKind] <;> rw [← h]

/-- C2: when the initial zram load fails with the module-operation kind
(and only then), the manager clears the error and attempts the unload; a
failed unload aborts with the "zram module already loaded: " composition
and no load retry; a successful unload leads to exactly one retried load
whose failure is surfaced unchanged. Failures of any other kind are
surfaced directly with no unload and no retry. -/
theorem thmC2_zram_load_fallback (env : Env) (num : Nat) (sizes : Nat → Nat)
    (nstreams : Option (Nat → Nat)) :
    ((env.loadOutcome 0 "zram" ("num_devices=" ++ Nat.repr num)).errKind
        = some ErrKind.moduleFail →
      Event.evUnload "zram" ∈ (runZram env num sizes nstreams).2.2.trace
      ∧ (∀ eu, unloadErr "zram" (env.unloadOutcome "zram") = some eu →
          (runZram env num sizes nstreams).1 = false
          ∧ (runZram env num sizes nstreams).2.1
              = some ⟨eu.kind, "zram module already loaded: " ++ eu.msg⟩
          ∧ countLoads (runZram env num sizes nstreams).2.2.trace = 1)
      ∧ (env.unloadOutcome "zram" = .ok →
          countLoads (runZram env num sizes nstreams).2.2.trace = 2
          ∧ (∀ e2, loadErr "zram" ("num_devices=" ++ Nat.repr num)
                (env.loadOutcome 1 "zram" ("num_devices=" ++ Nat.repr num)) = some e2 →
              (runZram env num sizes nstreams).1 = false
              ∧ (runZram env num sizes nstreams).2.1 = some e2)))
    ∧ (∀ k, (env.loadOutcome 0 "zram" ("num_devices=" ++ Nat.repr num)).errKind = some k →
        k ≠ ErrKind.moduleFail →
        (runZram env num sizes nstreams).1 = false
        ∧ (runZram env num sizes nstreams).2.1
            = loadErr "zram" ("num_devices=" ++ Nat.repr num)
                (env.loadOutcome 0 "zram" ("num_devices=" ++ Nat.repr num))
        ∧ countLoads (runZram env num sizes nstreams).2.2.trace = 1
        ∧ ∀ n, Event.evUnload n ∉ (runZram env num sizes nstreams).2.2.trace) := by
  constructor
  · intro hk
    refine ⟨?_, ?_, ?_⟩
    · cases hUE : unloadErr "zram" (env.unloadOutcome "zram") with
      | some eu =>
        rw [zram_create_unload_fail env num sizes nstreams eu hk hUE]
        simp
      | none =>
        have hu := unloadErr_eq_none _ _ hUE
        cases hl1 : loadErr "zram" ("num_devices=" ++ Nat.repr num)
            (env.loadOutcome 1 "zram" ("num_devices=" ++ Nat.repr num)) with
        | some e2 =>
          rw [zram_create_retry_fail env num sizes nstreams e2 hk hu hl1]
          simp
        | none =>
          have hl1ok := loadErr_eq_none _ _ _ hl1
          rw [zram_create_fallback_ok env num sizes nstreams hk hu hl1ok]
          obtain ⟨S, Z, htr, _, _⟩ := zram_setup_loops_trace num sizes nstreams none
            ⟨env, [Event.evLoad "zram" ("num_devices=" ++ Nat.repr num), Event.evUnload "zram",
                   Event.evLoad "zram" ("num_devices=" ++ Nat.repr num)]⟩
          rw [htr]
          simp
    · intro eu hUE
      rw [zram_create_unload_fail env num sizes nstreams eu hk hUE]
      exact ⟨rfl, rfl, by simp [countLoads, isLoadEv]⟩
    · intro hu
      constructor
      · cases hl1 : loadErr "zram" ("num_devices=" ++ Nat.repr num)
            (env.loadOutcome 1 "zram" ("num_devices=" ++ Nat.repr num)) with
        | some e2 =>
          rw [zram_create_retry_fail env num sizes nstreams e2 hk hu hl1]
          simp [countLoads, isLoadEv]
        | none =>
          have hl1ok := loadErr_eq_none _ _ _ hl1
          rw [zram_create_fallback_ok env num sizes nstreams hk hu hl1ok]
          obtain ⟨S, Z, htr, hS, hZ⟩ := zram_setup_loops_trace num sizes nstreams none
            ⟨env, [Event.evLoad "zram" ("num_devices=" ++ Nat.repr num), Event.evUnload "zram",
                   Event.evLoad "zram" ("num_devices=" ++ Nat.repr num)]⟩
          rw [htr, countLoads_append, countLoads_append]
          have hS0 : countLoads S = 0 := countLoads_echoes S (fun e he => by
            rcases hS e he with ⟨i, s, rfl⟩
            exact ⟨s, streamPath i, rfl⟩)
          have hZ0 : countLoads Z = 0 := countLoads_echoes Z (fun e he => by
            rcases hZ e he with ⟨i, s, rfl⟩
            exact ⟨s, diskPath i, rfl⟩)
          rw [hS0, hZ0]
          simp [countLoads, isLoadEv]
      · intro e2 hl1
        rw [zram_create_retry_fail env num sizes nstreams e2 hk hu hl1]
        exact ⟨rfl, rfl⟩
  · intro k hk hne
    rw [zram_create_other_fail env num sizes nstreams k hk hne]
    refine ⟨rfl, rfl, by simp [countLoads, isLoadEv], ?_⟩
    intro n hmem
    simp at hmem

/-- The module is already loaded (first load fails with EEXIST) and cannot
be unloaded either (EBUSY). -/
def envBusy : Env :=
  { allOkEnv with
      loadOutcome := fun idx _ _ => if idx = 0 then .insertFail "File exists" else .ok,
      unloadOutcome := fun _ => .removeFail "Device or resource busy" }

/-- Witness for C2: with EEXIST on load and EBUSY on unload the manager
fails with the composed already-loaded error after exactly one load call. -/
theorem thmC2_witness :
    (runZram envBusy 2 (fun _ => 1024) none).1 = false
    ∧ (runZram envBusy 2 (fun _ => 1024) none).2.1
        = some ⟨ErrKind.moduleFail,
            "zram module already loaded: Failed to unload the module 'zram': Device or resource busy"⟩
    ∧ countLoads (runZram envBusy 2 (fun _ => 1024) none).2.2.trace = 1 := by
  have T := (thmC2_zram_load_fallback envBusy 2 (fun _ => 1024) none).1 rfl
  have T2 := T.2.1
    ⟨ErrKind.moduleFail, "Failed to unload the module 'zram': Device or resource busy"⟩ rfl
  exact ⟨T2.1, T2.2.1, T2.2.2⟩

/-- A stream-count write failing at index i (all earlier ones succeeding)
makes the whole write phase abort with the index in the error context and
only the stream attempts up to i on the trace. -/
theorem zram_loops_firstFail_result (env : Env) (P : List Event) (num i : Nat)
    (ns sizes : Nat → Nat) (l2 : List Nat) (e : GErr)
    (hr : List.range num = List.range i ++ i :: l2)
    (hok : ∀ j, j < i → echoErr env (Nat.repr (ns j)) (streamPath j) = none)
    (hf : echoErr env (Nat.repr (ns i)) (streamPath i) = some e) :
    zram_setup_loops num sizes (some ns) none ⟨env, P⟩
      = (false,
         some ⟨e.kind,
           "Failed to set number of compression streams for '/dev/zram" ++ Nat.repr i
             ++ "': " ++ e.msg⟩,
         ⟨env, P ++ (List.range i ++ [i]).map
             (fun j => Event.evEcho (Nat.repr (ns j)) (streamPath j))⟩) := by
  have hFF := zramStreamsWrites_firstFail ns ⟨env, P⟩ (List.range i) i l2 e
    (fun j hj => hok j (List.mem_range.mp hj)) hf
  simp only [zram_setup_loops, hr, hFF, Bool.false_eq_true, if_false]

/-- No disksize write occurs among module events followed by stream-count
writes. -/
theorem no_disk_in_P_streams (P : List Event) (hP : ∀ e ∈ P, isModuleEv e)
    (evs : List Nat) (ns : Nat → Nat) :
    ∀ x ∈ P ++ evs.map (fun j => Event.evEcho (Nat.repr (ns j)) (streamPath j)),
      ¬ isDiskWriteEv x := by
  intro x hx
  rcases List.mem_append.mp hx with hx | hx
  · rintro ⟨k, s, rfl⟩
    exact hP _ hx
  · rcases List.mem_map.mp hx with ⟨j, _, rfl⟩
    rintro ⟨k, s, heq⟩
    injection heq with h1 h2
    exact streamPath_ne_diskPath j k h2

/-- C3: with nstreams given, every execution puts all stream-count writes
strictly before any disksize write (the trace is module events, then
stream writes, then disksize writes); and when the module phase succeeds
and the stream write of index i is the first to fail, the operation aborts
with an error naming index i and no disksize write is ever issued. -/
theorem thmC3_zram_write_ordering (env : Env) (num : Nat) (sizes ns : Nat → Nat) :
    (∃ P S Z, (runZram env num sizes (some ns)).2.2.trace = P ++ S ++ Z
      ∧ (∀ e ∈ P, isModuleEv e) ∧ (∀ e ∈ S, isStreamWriteEv e) ∧ (∀ e ∈ Z, isDiskWriteEv e))
    ∧ (loadPhaseOk env num →
       ∀ i e, i < num →
        (∀ j, j < i → echoErr env (Nat.repr (ns j)) (streamPath j) = none) →
        echoErr env (Nat.repr (ns i)) (streamPath i) = some e →
        (runZram env num sizes (some ns)).1 = false
        ∧ (runZram env num sizes (some ns)).2.1
            = some ⟨e.kind,
                "Failed to set number of compression streams for '/dev/zram" ++ Nat.repr i
                  ++ "': " ++ e.msg⟩
        ∧ ∀ x ∈ (runZram env num sizes (some ns)).2.2.trace, ¬ isDiskWriteEv x) := by
  constructor
  · cases hl0 : loadErr "zram" ("num_devices=" ++ Nat.repr num)
        (env.loadOutcome 0 "zram" ("num_devices=" ++ Nat.repr num)) with
    | none =>
      have h0 := loadErr_eq_none _ _ _ hl0
      rw [zram_create_load_ok env num sizes (some ns) h0]
      obtain ⟨S, Z, htr, hS, hZ⟩ := zram_setup_loops_trace num sizes (some ns) none
        ⟨env, [Event.evLoad "zram" ("num_devices=" ++ Nat.repr num)]⟩
      exact ⟨_, S, Z, htr, by simp [isModuleEv], hS, hZ⟩
    | some e =>
      by_cases hmf : e.kind = ErrKind.moduleFail
      · have hk := loadErr_kind _ _ _ _ hl0
        rw [hmf] at hk
        cases hUE : unloadErr "zram" (env.unloadOutcome "zram") with
        | some eu =>
          rw [zram_create_unload_fail env num sizes (some ns) eu hk hUE]
          exact ⟨[Event.evLoad "zram" ("num_devices=" ++ Nat.repr num), Event.evUnload "zram"],
            [], [], by simp, by simp [isModuleEv], by simp, by simp⟩
        | none =>
          have hu := unloadErr_eq_none _ _ hUE
          cases hl1 : loadErr "zram" ("num_devices=" ++ Nat.repr num)
              (env.loadOutcome 1 "zram" ("num_devices=" ++ Nat.repr num)) with
          | some e2 =>
            rw [zram_create_retry_fail env num sizes (some ns) e2 hk hu hl1]
            exact ⟨[Event.evLoad "zram" ("num_devices=" ++ Nat.repr num), Event.evUnload "zram",
              Event.evLoad "zram" ("num_devices=" ++ Nat.repr num)],
              [], [], by simp, by simp [isModuleEv], by simp, by simp⟩
          | none =>
            have hl1ok := loadErr_eq_none _ _ _ hl1
            rw [zram_create_fallback_ok env num sizes (some ns) hk hu hl1ok]
            obtain ⟨S, Z, htr, hS, hZ⟩ := zram_setup_loops_trace num sizes (some ns) none
              ⟨env, [Event.evLoad "zram" ("num_devices=" ++ Nat.repr num),
                     Event.evUnload "zram",
                     Event.evLoad "zram" ("num_devices=" ++ Nat.repr num)]⟩
            exact ⟨_, S, Z, htr, by simp [isModuleEv], hS, hZ⟩
      · have hk := loadErr_kind _ _ _ _ hl0
        rw [zram_create_other_fail env num sizes (some ns) e.kind hk hmf]
        exact ⟨[Event.evLoad "zram" ("num_devices=" ++ Nat.repr num)],
          [], [], by simp, by simp [isModuleEv], by simp, by simp⟩
  · intro hph i e hi hok hf
    obtain ⟨l2, hr⟩ := range_split i num hi
    rcases hph with h0 | ⟨hk, hu, h1⟩
    · rw [zram_create_load_ok env num sizes (some ns) h0,
          zram_loops_firstFail_result env _ num i ns sizes l2 e hr hok hf]
      exact ⟨rfl, rfl, no_disk_in_P_streams _ (by simp [isModuleEv]) _ ns⟩
    · rw [zram_create_fallback_ok env num sizes (some ns) hk hu h1,
          zram_loops_firstFail_result env _ num i ns sizes l2 e hr hok hf]
      exact ⟨rfl, rfl, no_disk_in_P_streams _ (by simp [isModuleEv]) _ ns⟩

/-- The module loads fine but the very first stream-count write fails. -/
def envStreamFail : Env :=
  { allOkEnv with writeChars := fun _ p => if p = streamPath 0 then .error "EACCES" else .ok () }

/-- Witness for C3: with the stream write of index 0 failing, the create
call fails naming index 0 and no disksize write is on the trace. -/
theorem thmC3_witness :
    (runZram envStreamFail 1 (fun _ => 1024) (some fun _ => 2)).1 = false
    ∧ (runZram envStreamFail 1 (fun _ => 1024) (some fun _ => 2)).2.1
        = some ⟨ErrKind.ioError,
            "Failed to set number of compression streams for '/dev/zram" ++ Nat.repr 0
              ++ "': " ++ "Failed to write '2' to file '/sys/block/zram0/max_comp_streams': EACCES"⟩
    ∧ ∀ x ∈ (runZram envStreamFail 1 (fun _ => 1024) (some fun _ => 2)).2.2.trace,
        ¬ isDiskWriteEv x := by
  have T := (thmC3_zram_write_ordering envStreamFail 1 (fun _ => 1024) (fun _ => 2)).2
    (Or.inl rfl) 0
    ⟨ErrKind.ioError, "Failed to write '2' to file '/sys/block/zram0/max_comp_streams': EACCES"⟩
    Nat.one_pos (fun j hj => absurd hj (Nat.not_lt_zero j)) (by decide)
  exact ⟨T.1, T.2.1, T.2.2⟩

end Kbd
